import Mathlib

/-!
Shallow embedding of the incident create route
(`src/frontend/src/app/api/incidents/route.ts`) of the status-page
repository: the zod schema `incidentSchema`, the authenticated `POST`
handler with its organization / service ownership checks, the Prisma
`$transaction` creating the `Incident` row and its `IncidentService`
association rows, the hydrating `findUnique`, and the Pusher publish.

The durable store is modelled as an explicit record of table contents;
the transaction is modelled as all-or-nothing state transformation
(commit on success, original state on failure), matching Prisma's
interactive-transaction contract.  Fallible collaborators (the JSON body
parse, an injected failure inside the transaction, the publish call) are
modelled as explicit failure flags in the environment; a failure throws,
and the handler's `try/catch` turns any throw into the generic 500
response.
-/

namespace StatusPage

/-- The `status` enum of `incidentSchema` (route.ts line 10). -/
inductive Status where
  | investigating
  | identified
  | monitoring
  | resolved
deriving DecidableEq

/-- The `impact` enum of `incidentSchema` (route.ts line 11). -/
inductive Impact where
  | minor
  | major
  | critical
deriving DecidableEq

/-- The `type` enum of `incidentSchema` (route.ts line 14). -/
inductive IncidentType where
  | incident
  | maintenance
deriving DecidableEq

/-- zod's cuid string check (`z.string().cuid()`): the regex
`^c[^\s-]{8,}$` with case-insensitive flag — a leading `c`, followed by
at least eight characters none of which is whitespace or a hyphen. -/
def isCuid (s : String) : Bool :=
  match s.data with
  | [] => false
  | c :: rest =>
      (c = 'c' || c = 'C') && rest.length ≥ 8 &&
        rest.all (fun ch => !(ch.isWhitespace || ch = '-'))

/-- The raw JSON object handed to `incidentSchema.safeParse`; `none`
means the key is absent (or not of the expected shape). -/
structure RawInput where
  title : Option String
  description : Option String
  status : Option String
  impact : Option String
  serviceIds : Option (List String)
  organizationId : Option String
  type : Option String
deriving DecidableEq

/-- The fields of `incidentSchema`, used to identify which constraint a
validation issue belongs to. -/
inductive Field where
  | title
  | description
  | status
  | impact
  | serviceIds
  | organizationId
  | type
deriving DecidableEq

/-- The validated value produced by `incidentSchema` (route.ts line 38
destructures exactly these fields). -/
structure IncidentIntent where
  title : String
  description : String
  status : Status
  impact : Impact
  serviceIds : List String
  organizationId : String
  type : IncidentType
deriving DecidableEq

/-- Field rule `title: z.string().min(1).max(100)`. -/
def parseTitle : Option String → Except Unit String
  | none => .error ()
  | some s => if 1 ≤ s.length ∧ s.length ≤ 100 then .ok s else .error ()

/-- Field rule `description: z.string().min(10).max(1000)`. -/
def parseDescription : Option String → Except Unit String
  | none => .error ()
  | some s => if 10 ≤ s.length ∧ s.length ≤ 1000 then .ok s else .error ()

/-- Field rule `status: z.enum([investigating, identified, monitoring, resolved])`. -/
def parseStatus : Option String → Except Unit Status
  | some ("investigating") => .ok .investigating
  | some ("identified") => .ok .identified
  | some ("monitoring") => .ok .monitoring
  | some ("resolved") => .ok .resolved
  | _ => .error ()

/-- Field rule `impact: z.enum([minor, major, critical])`. -/
def parseImpact : Option String → Except Unit Impact
  | some ("minor") => .ok .minor
  | some ("major") => .ok .major
  | some ("critical") => .ok .critical
  | _ => .error ()

/-- Field rule `serviceIds: z.array(z.string().cuid()).min(1)`. -/
def parseServiceIds : Option (List String) → Except Unit (List String)
  | none => .error ()
  | some l => if 1 ≤ l.length ∧ l.all isCuid = true then .ok l else .error ()

/-- Field rule `organizationId: z.string().cuid()`. -/
def parseOrganizationId : Option String → Except Unit String
  | none => .error ()
  | some s => if isCuid s = true then .ok s else .error ()

/-- Field rule `type: z.enum([incident, maintenance]).optional().default("incident")`. -/
def parseType : Option String → Except Unit IncidentType
  | none => .ok .incident
  | some ("incident") => .ok .incident
  | some ("maintenance") => .ok .maintenance
  | some _ => .error ()

/-- Tags a per-field result with its field name for the issue list. -/
def errTag {α : Type} (f : Field) : Except Unit α → List Field
  | .ok _ => []
  | .error _ => [f]

/-- Models `incidentSchema.safeParse`: zod validates every key of the object,
accumulating an issue for each violated field; success only when every
field parses. -/
def safeParse (raw : RawInput) : Except (List Field) IncidentIntent :=
  match parseTitle raw.title, parseDescription raw.description,
        parseStatus raw.status, parseImpact raw.impact,
        parseServiceIds raw.serviceIds,
        parseOrganizationId raw.organizationId, parseType raw.type with
  | .ok t, .ok d, .ok s, .ok i, .ok sv, .ok o, .ok ty =>
      .ok { title := t, description := d, status := s, impact := i,
            serviceIds := sv, organizationId := o, type := ty }
  | rT, rD, rS, rI, rSv, rO, rTy =>
      .error (errTag .title rT ++ errTag .description rD ++
              errTag .status rS ++ errTag .impact rI ++
              errTag .serviceIds rSv ++ errTag .organizationId rO ++
              errTag .type rTy)

/-- A row of the `Organization` table (`id`, `clerkOrgId`). -/
structure OrganizationRow where
  id : String
  clerkOrgId : String
deriving DecidableEq

/-- A row of the `Service` table. -/
structure ServiceRow where
  id : String
  name : String
  organizationId : String
deriving DecidableEq

/-- A row of the `Incident` table, with the fields written by
`tx.incident.create` (route.ts lines 72–82); `id` is the store-assigned
fresh identity, `startedAt` the write-time timestamp. -/
structure IncidentRow where
  id : Nat
  title : String
  description : String
  status : Status
  impact : Impact
  type : IncidentType
  organizationId : String
  startedAt : Nat
deriving DecidableEq

/-- A row of the `IncidentService` association table. -/
structure IncidentServiceRow where
  incidentId : Nat
  serviceId : String
deriving DecidableEq

/-- The durable store: the four tables touched by the route plus the
fresh-identity counter the store uses for new `Incident` rows. -/
structure DB where
  organizations : List OrganizationRow
  services : List ServiceRow
  incidents : List IncidentRow
  incidentServices : List IncidentServiceRow
  nextId : Nat
deriving DecidableEq

/-- Models `db.organization.findFirst({ where: { id, clerkOrgId } })`
(route.ts lines 41–46). -/
def orgLookup (db : DB) (organizationId clerkOrgId : String) :
    Option OrganizationRow :=
  db.organizations.find?
    (fun o => o.id == organizationId && o.clerkOrgId == clerkOrgId)

/-- Models `db.service.count({ where: { id: { in: serviceIds }, organizationId } })`
(route.ts lines 56–61). -/
def servicesCount (db : DB) (serviceIds : List String)
    (organizationId : String) : Nat :=
  (db.services.filter
    (fun s => serviceIds.contains s.id && s.organizationId == organizationId)).length

/-- The payload of the hydrating `tx.incident.findUnique` (route.ts
lines 91–100): the incident row together with its `IncidentService`
rows, each joined with its full `Service` record. -/
structure HydratedIncident where
  incident : IncidentRow
  services : List (IncidentServiceRow × Option ServiceRow)
deriving DecidableEq

/-- Models `tx.incident.findUnique({ where: { id }, include: { services: {
include: { service: true } } } })`. -/
def hydrate (db : DB) (incidentId : Nat) : Option HydratedIncident :=
  (db.incidents.find? (fun i => i.id == incidentId)).map (fun row =>
    { incident := row
      services :=
        (db.incidentServices.filter (fun a => a.incidentId == incidentId)).map
          (fun a => (a, db.services.find? (fun s => s.id == a.serviceId))) })

/-- The `db.$transaction` body (route.ts lines 71–101): insert the
`Incident` row, then the `IncidentService` rows, then re-read the
hydrated incident.  `failBetween` injects a failure between the two
inserts; any failure rolls the whole unit of work back (the caller keeps
the original `DB`). -/
def txBody (db : DB) (intent : IncidentIntent) (now : Nat)
    (failBetween : Bool) : Except Unit (DB × Option HydratedIncident) :=
  let row : IncidentRow :=
    { id := db.nextId, title := intent.title,
      description := intent.description, status := intent.status,
      impact := intent.impact, type := intent.type,
      organizationId := intent.organizationId, startedAt := now }
  let db1 : DB :=
    { db with incidents := db.incidents ++ [row], nextId := db.nextId + 1 }
  if failBetween then .error () else
  let assocRows : List IncidentServiceRow :=
    intent.serviceIds.map (fun sid => { incidentId := row.id, serviceId := sid })
  let db2 : DB :=
    { db1 with incidentServices := db1.incidentServices ++ assocRows }
  .ok (db2, hydrate db2 row.id)

/-- One `pusherServer.trigger` call: channel name, event name, payload
(route.ts lines 104–108). -/
structure Event where
  channel : String
  eventName : String
  payload : Option HydratedIncident
deriving DecidableEq

/-- The JSON bodies the route can answer with. -/
inductive ResponseBody where
  | errorMsg (msg : String)
  | errorDetails (msg : String) (details : List Field)
  | incidentBody (h : Option HydratedIncident)
deriving DecidableEq

/-- A `NextResponse.json(body, { status })` value. -/
structure ApiResponse where
  statusCode : Nat
  body : ResponseBody
deriving DecidableEq

/-- The 500 response produced by the handler's catch-all
(route.ts lines 111–117). -/
def internalError : ApiResponse :=
  { statusCode := 500, body := .errorMsg ("Internal server error") }

/-- The per-request environment: the Clerk session (`auth()`), the
request body (`none` models a body `req.json()` cannot parse, which
throws), the injected transaction failure, whether the publish call
fails, and the clock read by `new Date()`. -/
structure Env where
  userId : Option String
  orgId : Option String
  body : Option RawInput
  failBetweenInserts : Bool
  notifyFails : Bool
  now : Nat
deriving DecidableEq

/-- The result of one `POST` call: the response returned to the caller,
the durable store afterwards, and the publish events delivered. -/
structure PostResult where
  response : ApiResponse
  db : DB
  events : List Event
deriving DecidableEq

/-- The `POST` handler (route.ts lines 17–118).  Stage order is the
source's: `auth()` first, then `req.json()`, then
`incidentSchema.safeParse`, then the organization lookup, then the
service-ownership count check, then the transaction, then the publish.
A throw anywhere inside the `try` (unparseable body, aborted
transaction, failed publish) lands in the catch-all, which answers the
generic 500 with whatever state committed before the throw. -/
def POST (env : Env) (db : DB) : PostResult :=
  match env.userId, env.orgId with
  | some _, some clerkOrgId =>
    match env.body with
    | none => { response := internalError, db := db, events := [] }
    | some raw =>
      match safeParse raw with
      | .error errs =>
          { response := { statusCode := 400,
                          body := .errorDetails ("Invalid data") errs },
            db := db, events := [] }
      | .ok intent =>
        match orgLookup db intent.organizationId clerkOrgId with
        | none =>
            { response := { statusCode := 404,
                            body := .errorMsg ("Organization not found") },
              db := db, events := [] }
        | some _ =>
          if servicesCount db intent.serviceIds intent.organizationId ≠
              intent.serviceIds.length then
            { response := { statusCode := 400,
                            body := .errorMsg ("One or more services not found") },
              db := db, events := [] }
          else
            match txBody db intent env.now env.failBetweenInserts with
            | .error _ => { response := internalError, db := db, events := [] }
            | .ok (db2, hydrated) =>
              if env.notifyFails then
                { response := internalError, db := db2, events := [] }
              else
                { response := { statusCode := 200,
                                body := .incidentBody hydrated },
                  db := db2,
                  events := [{ channel := "org-" ++ intent.organizationId,
                               eventName := "incident-created",
                               payload := hydrated }] }
  | _, _ =>
      { response := { statusCode := 401, body := .errorMsg ("Unauthorized") },
        db := db, events := [] }

/-- A requested identifier resolves within the organization. -/
def resolves (db : DB) (orgId sid : String) : Prop :=
  ∃ s ∈ db.services, s.id = sid ∧ s.organizationId = orgId

/-- The `Incident` row inserted by the transaction. -/
def newRow (db : DB) (intent : IncidentIntent) (now : Nat) : IncidentRow :=
  { id := db.nextId, title := intent.title, description := intent.description,
    status := intent.status, impact := intent.impact, type := intent.type,
    organizationId := intent.organizationId, startedAt := now }

/-- The store after the transaction committed. -/
def committedDB (db : DB) (intent : IncidentIntent) (now : Nat) : DB :=
  { db with
    incidents := db.incidents ++ [newRow db intent now],
    incidentServices := db.incidentServices ++
      intent.serviceIds.map
        (fun sid => { incidentId := db.nextId, serviceId := sid }),
    nextId := db.nextId + 1 }

/-- Concrete organization used by the witness scenarios. -/
def org0 : OrganizationRow := { id := "corg12345", clerkOrgId := "clerk1" }

/-- A service of `org0`. -/
def svc1 : ServiceRow :=
  { id := "cserva111", name := "API", organizationId := "corg12345" }

/-- A second service of `org0`. -/
def svc2 : ServiceRow :=
  { id := "cservb222", name := "Web", organizationId := "corg12345" }

/-- A store holding `org0` with its two services and no incidents. -/
def db0 : DB :=
  { organizations := [org0], services := [svc1, svc2],
    incidents := [], incidentServices := [], nextId := 0 }

/-- A well-formed create request body for `org0`. -/
def raw0 : RawInput :=
  { title := some ("API latency issues"),
    description := some ("Elevated latency on the public API"),
    status := some ("investigating"), impact := some ("major"),
    serviceIds := some ["cserva111", "cservb222"],
    organizationId := some ("corg12345"), type := none }

/-- The intent `incidentSchema` produces from `raw0`. -/
def intent0 : IncidentIntent :=
  { title := "API latency issues",
    description := "Elevated latency on the public API",
    status := .investigating, impact := .major,
    serviceIds := ["cserva111", "cservb222"],
    organizationId := "corg12345", type := .incident }

/-- A fully healthy environment: authenticated session of `org0`,
parseable valid body, no injected failures. -/
def env0 : Env :=
  { userId := some ("user1"), orgId := some ("clerk1"), body := some raw0,
    failBetweenInserts := false, notifyFails := false, now := 42 }

/-- Same as `env0` but the publish call fails. -/
def envNF : Env := { env0 with notifyFails := true }

/-- Same as `env0` but a failure is injected between the two inserts. -/
def envFB : Env := { env0 with failBetweenInserts := true }

/-- Same as `env0` but the body is not parseable as JSON. -/
def envNoBody : Env := { env0 with body := none }

/-- A body failing validation (empty title). -/
def rawBad : RawInput := { raw0 with title := some ("") }

/-- An unauthenticated request carrying an invalid body. -/
def envNoAuth : Env := { env0 with userId := none, body := some rawBad }

/-- An authenticated request carrying an invalid body. -/
def envBadBody : Env := { env0 with body := some rawBad }

/-- A store in which the target organization does not exist. -/
def dbNoOrg : DB := { db0 with organizations := [] }

/-- A body listing the same valid service identifier twice. -/
def rawDup : RawInput :=
  { raw0 with serviceIds := some ["cserva111", "cserva111"] }

/-- The intent produced from `rawDup`. -/
def intentDup : IncidentIntent :=
  { intent0 with serviceIds := ["cserva111", "cserva111"] }

/-- Environment sending `rawDup`. -/
def envDup : Env := { env0 with body := some rawDup }

/-- A body referencing a service id that resolves to no row of `db0`. -/
def rawC3 : RawInput := { raw0 with serviceIds := some ["cservzzz9"] }

/-- The intent produced from `rawC3`. -/
def intentC3 : IncidentIntent := { intent0 with serviceIds := ["cservzzz9"] }

/-- Environment sending `rawC3`. -/
def envC3 : Env := { env0 with body := some rawC3 }

/-- The multi-violation example input of the specification. -/
def rawC6 : RawInput :=
  { title := some (""), description := some ("short"),
    status := some ("bogus"), impact := some ("minor"),
    serviceIds := some [], organizationId := none, type := none }

/-- The issue list `incidentSchema` reports for `rawC6`. -/
def errsC6 : List Field :=
  [.title, .description, .status, .serviceIds, .organizationId]

/-- A body meeting the five field rules named by the specification text
but with an empty `serviceIds` list. -/
def rawC8 : RawInput := { raw0 with serviceIds := some [] }

/-- The hydrated incident produced by the `env0`/`db0` scenario. -/
def hyd0 : HydratedIncident :=
  { incident :=
      { id := 0, title := "API latency issues",
        description := "Elevated latency on the public API",
        status := .investigating, impact := .major, type := .incident,
        organizationId := "corg12345", startedAt := 42 },
    services := [({ incidentId := 0, serviceId := "cserva111" }, some svc1),
                 ({ incidentId := 0, serviceId := "cservb222" }, some svc2)] }

/-- The single publish event of the `env0`/`db0` scenario. -/
def ev0 : Event :=
  { channel := "org-corg12345", eventName := "incident-created",
    payload := some hyd0 }

theorem find?_append_right {α : Type} (p : α → Bool) (l₁ l₂ : List α)
    (h : ∀ x ∈ l₁, p x = false) : (l₁ ++ l₂).find? p = l₂.find? p := by
  induction l₁ with
  | nil => rfl
  | cons a l ih =>
    have ha := h a (by simp)
    simp only [List.cons_append, List.find?, ha]
    exact ih (fun x hx => h x (by simp [hx]))

theorem matched_map_nodup (db : DB) (ids : List String) (orgId : String)
    (hnodup : (db.services.map ServiceRow.id).Nodup) :
    ((db.services.filter
        (fun s => ids.contains s.id && s.organizationId == orgId)).map
      ServiceRow.id).Nodup :=
  List.Nodup.sublist (List.Sublist.map _ (List.filter_sublist _)) hnodup

theorem matched_map_subset (db : DB) (ids : List String) (orgId : String) :
    ((db.services.filter
        (fun s => ids.contains s.id && s.organizationId == orgId)).map
      ServiceRow.id) ⊆ ids := by
  intro x hx
  rcases List.mem_map.mp hx with ⟨s, hs, rfl⟩
  rcases List.mem_filter.mp hs with ⟨_, hps⟩
  have h2 := (Bool.and_eq_true _ _).mp hps
  simpa [List.contains] using h2.1

theorem servicesCount_eq_map_length (db : DB) (ids : List String) (orgId : String) :
    servicesCount db ids orgId =
      ((db.services.filter
          (fun s => ids.contains s.id && s.organizationId == orgId)).map
        ServiceRow.id).length := by
  simp [servicesCount]

theorem servicesCount_eq_iff (db : DB) (ids : List String) (orgId : String)
    (hnodup : (db.services.map ServiceRow.id).Nodup) :
    servicesCount db ids orgId = ids.length ↔
      (ids.Nodup ∧ ∀ sid ∈ ids, resolves db orgId sid) := by
  have hmn := matched_map_nodup db ids orgId hnodup
  have hsub := matched_map_subset db ids orgId
  have hcnt := servicesCount_eq_map_length db ids orgId
  constructor
  · intro hlen
    have hsp := List.subperm_of_subset hmn hsub
    have hperm := hsp.perm_of_length_le (by omega)
    refine ⟨(hperm.nodup_iff).mp hmn, ?_⟩
    intro sid hsid
    have hmem : sid ∈ (db.services.filter
        (fun s => ids.contains s.id && s.organizationId == orgId)).map ServiceRow.id :=
      hperm.mem_iff.mpr hsid
    rcases List.mem_map.mp hmem with ⟨s, hs, rfl⟩
    rcases List.mem_filter.mp hs with ⟨hsv, hps⟩
    have h2 := (Bool.and_eq_true _ _).mp hps
    exact ⟨s, hsv, rfl, by simpa using h2.2⟩
  · rintro ⟨hd, hres⟩
    have hsub2 : ids ⊆ (db.services.filter
        (fun s => ids.contains s.id && s.organizationId == orgId)).map ServiceRow.id := by
      intro sid hsid
      rcases hres sid hsid with ⟨s, hsv, hid, horg⟩
      refine List.mem_map.mpr ⟨s, List.mem_filter.mpr ⟨hsv, ?_⟩, hid⟩
      refine (Bool.and_eq_true _ _).mpr ⟨?_, by simp [horg]⟩
      simp [List.contains, hid ▸ hsid]
    have h1 := (List.subperm_of_subset hmn hsub).length_le
    have h2 := (List.subperm_of_subset hd hsub2).length_le
    omega

theorem servicesCount_lt_of_unresolved (db : DB) (ids : List String)
    (orgId sid : String)
    (hnodup : (db.services.map ServiceRow.id).Nodup) (hsid : sid ∈ ids)
    (hbad : ∀ s ∈ db.services, ¬(s.id = sid ∧ s.organizationId = orgId)) :
    servicesCount db ids orgId < ids.length := by
  have hmn := matched_map_nodup db ids orgId hnodup
  have hsub := matched_map_subset db ids orgId
  have hcnt := servicesCount_eq_map_length db ids orgId
  have hsub2 : ((db.services.filter
      (fun s => ids.contains s.id && s.organizationId == orgId)).map
      ServiceRow.id) ⊆ ids.erase sid := by
    intro x hx
    rcases List.mem_map.mp hx with ⟨s, hs, rfl⟩
    rcases List.mem_filter.mp hs with ⟨hsv, hps⟩
    have h2 := (Bool.and_eq_true _ _).mp hps
    have hne : s.id ≠ sid := by
      intro he
      exact hbad s hsv ⟨he, by simpa using h2.2⟩
    exact (List.mem_erase_of_ne hne).mpr (hsub hx)
  have hle := (List.subperm_of_subset hmn hsub2).length_le
  have herase := List.length_erase_of_mem hsid
  have hpos : 0 < ids.length := List.length_pos.mpr (List.ne_nil_of_mem hsid)
  omega

theorem post_db_unchanged_of_failBetween (env : Env) (db : DB)
    (h : env.failBetweenInserts = true) : (POST env db).db = db := by
  unfold POST
  repeat' split <;> try rfl
  all_goals simp_all [txBody]

theorem post_events_nil_of_failBetween (env : Env) (db : DB)
    (h : env.failBetweenInserts = true) : (POST env db).events = [] := by
  unfold POST
  repeat' split <;> try rfl
  all_goals simp_all [txBody]

theorem txBody_ok (db : DB) (intent : IncidentIntent) (now : Nat) :
    txBody db intent now false =
      .ok (committedDB db intent now,
           hydrate (committedDB db intent now) db.nextId) := rfl

theorem post_success_reduce (env : Env) (db : DB) (u o : String)
    (raw : RawInput) (intent : IncidentIntent) (org : OrganizationRow)
    (hu : env.userId = some u) (ho : env.orgId = some o)
    (hb : env.body = some raw) (hp : safeParse raw = .ok intent)
    (horg : orgLookup db intent.organizationId o = some org)
    (hcount : servicesCount db intent.serviceIds intent.organizationId =
      intent.serviceIds.length)
    (hfb : env.failBetweenInserts = false) :
    POST env db =
      if env.notifyFails then
        { response := internalError, db := committedDB db intent env.now,
          events := [] }
      else
        { response := { statusCode := 200,
                        body := .incidentBody (hydrate (committedDB db intent env.now) db.nextId) },
          db := committedDB db intent env.now,
          events := [{ channel := "org-" ++ intent.organizationId,
                       eventName := "incident-created",
                       payload := hydrate (committedDB db intent env.now) db.nextId }] } := by
  have htx := txBody_ok db intent env.now
  rw [← hfb] at htx
  simp [POST, hu, ho, hb, hp, horg, hcount, htx]

theorem hydrate_committed (db : DB) (intent : IncidentIntent) (now : Nat)
    (hfresh1 : ∀ i ∈ db.incidents, i.id ≠ db.nextId)
    (hfresh2 : ∀ a ∈ db.incidentServices, a.incidentId ≠ db.nextId) :
    hydrate (committedDB db intent now) db.nextId =
      some { incident := newRow db intent now,
             services := intent.serviceIds.map (fun sid =>
               ({ incidentId := db.nextId, serviceId := sid },
                db.services.find? (fun s => s.id == sid))) } := by
  have hfind : ((db.incidents ++ [newRow db intent now]).find?
      (fun i => i.id == db.nextId)) = some (newRow db intent now) := by
    rw [find?_append_right _ _ _ (fun x hx => by simpa using hfresh1 x hx)]
    simp [newRow]
  have hfilter : ((db.incidentServices ++
      intent.serviceIds.map
        (fun sid => ({ incidentId := db.nextId, serviceId := sid } : IncidentServiceRow))).filter
      (fun a => a.incidentId == db.nextId)) =
      intent.serviceIds.map
        (fun sid => ({ incidentId := db.nextId, serviceId := sid } : IncidentServiceRow)) := by
    rw [List.filter_append]
    have h1 : (db.incidentServices.filter (fun a => a.incidentId == db.nextId)) = [] :=
      List.filter_eq_nil_iff.mpr (fun a ha => by simpa using hfresh2 a ha)
    have h2 : ((intent.serviceIds.map
        (fun sid => ({ incidentId := db.nextId, serviceId := sid } : IncidentServiceRow))).filter
        (fun a => a.incidentId == db.nextId)) =
        intent.serviceIds.map
          (fun sid => ({ incidentId := db.nextId, serviceId := sid } : IncidentServiceRow)) := by
      refine List.filter_eq_self.mpr ?_
      intro a ha
      rcases List.mem_map.mp ha with ⟨sid, _, rfl⟩
      simp
    rw [h1, h2, List.nil_append]
  simp only [hydrate, committedDB, hfind, Option.map_some, hfilter, List.map_map]
  rfl

theorem parseTitle_isOk_iff (o : Option String) :
    (parseTitle o).isOk = true ↔
      ∃ t, o = some t ∧ (1 ≤ t.length ∧ t.length ≤ 100) := by
  rcases o with _ | t
  · simp [parseTitle, Except.isOk, Except.toBool]
  · by_cases h : 1 ≤ t.length ∧ t.length ≤ 100 <;>
      simp [parseTitle, h, Except.isOk, Except.toBool]

theorem parseDescription_isOk_iff (o : Option String) :
    (parseDescription o).isOk = true ↔
      ∃ d, o = some d ∧ (10 ≤ d.length ∧ d.length ≤ 1000) := by
  rcases o with _ | d
  · simp [parseDescription, Except.isOk, Except.toBool]
  · by_cases h : 10 ≤ d.length ∧ d.length ≤ 1000 <;>
      simp [parseDescription, h, Except.isOk, Except.toBool]

theorem parseStatus_isOk_iff (o : Option String) :
    (parseStatus o).isOk = true ↔
      (o = some "investigating" ∨ o = some "identified" ∨
       o = some "monitoring" ∨ o = some "resolved") := by
  unfold parseStatus
  split <;> simp_all [Except.isOk, Except.toBool]

theorem parseImpact_isOk_iff (o : Option String) :
    (parseImpact o).isOk = true ↔
      (o = some "minor" ∨ o = some "major" ∨ o = some "critical") := by
  unfold parseImpact
  split <;> simp_all [Except.isOk, Except.toBool]

theorem parseType_isOk_iff (o : Option String) :
    (parseType o).isOk = true ↔
      (o = none ∨ o = some "incident" ∨ o = some "maintenance") := by
  unfold parseType
  split <;> simp_all [Except.isOk, Except.toBool]

theorem parseServiceIds_isOk_iff (o : Option (List String)) :
    (parseServiceIds o).isOk = true ↔
      ∃ l, o = some l ∧ (1 ≤ l.length ∧ l.all isCuid = true) := by
  rcases o with _ | l
  · simp [parseServiceIds, Except.isOk, Except.toBool]
  · by_cases h : 1 ≤ l.length ∧ l.all isCuid = true
    · refine iff_of_true ?_ ⟨l, rfl, h⟩
      simp only [parseServiceIds, if_pos h, Except.isOk, Except.toBool]
    · refine iff_of_false ?_ ?_
      · simp only [parseServiceIds, if_neg h, Except.isOk, Except.toBool]
        simp
      · rintro ⟨l2, hl, hc⟩
        cases hl
        exact h hc

theorem parseOrganizationId_isOk_iff (o : Option String) :
    (parseOrganizationId o).isOk = true ↔
      ∃ s, o = some s ∧ isCuid s = true := by
  rcases o with _ | s
  · simp [parseOrganizationId, Except.isOk, Except.toBool]
  · by_cases h : isCuid s = true <;>
      simp [parseOrganizationId, h, Except.isOk, Except.toBool]

theorem safeParse_isOk_iff_parts (raw : RawInput) :
    (safeParse raw).isOk = true ↔
      ((parseTitle raw.title).isOk = true ∧
       (parseDescription raw.description).isOk = true ∧
       (parseStatus raw.status).isOk = true ∧
       (parseImpact raw.impact).isOk = true ∧
       (parseServiceIds raw.serviceIds).isOk = true ∧
       (parseOrganizationId raw.organizationId).isOk = true ∧
       (parseType raw.type).isOk = true) := by
  unfold safeParse
  rcases hT : parseTitle raw.title with _ | t <;>
  rcases hD : parseDescription raw.description with _ | d <;>
  rcases hS : parseStatus raw.status with _ | s <;>
  rcases hI : parseImpact raw.impact with _ | i <;>
  rcases hSv : parseServiceIds raw.serviceIds with _ | sv <;>
  rcases hO : parseOrganizationId raw.organizationId with _ | og <;>
  rcases hTy : parseType raw.type with _ | ty <;>
    simp [Except.isOk, Except.toBool]

theorem safeParse_error_members (raw : RawInput) (errs : List Field)
    (h : safeParse raw = .error errs) :
    (((parseTitle raw.title).isOk = false ↔ Field.title ∈ errs) ∧
     ((parseDescription raw.description).isOk = false ↔ Field.description ∈ errs) ∧
     ((parseStatus raw.status).isOk = false ↔ Field.status ∈ errs) ∧
     ((parseImpact raw.impact).isOk = false ↔ Field.impact ∈ errs) ∧
     ((parseServiceIds raw.serviceIds).isOk = false ↔ Field.serviceIds ∈ errs) ∧
     ((parseOrganizationId raw.organizationId).isOk = false ↔ Field.organizationId ∈ errs) ∧
     ((parseType raw.type).isOk = false ↔ Field.type ∈ errs)) := by
  unfold safeParse at h
  rcases hT : parseTitle raw.title with _ | t <;>
  rcases hD : parseDescription raw.description with _ | d <;>
  rcases hS : parseStatus raw.status with _ | s <;>
  rcases hI : parseImpact raw.impact with _ | i <;>
  rcases hSv : parseServiceIds raw.serviceIds with _ | sv <;>
  rcases hO : parseOrganizationId raw.organizationId with _ | og <;>
  rcases hTy : parseType raw.type with _ | ty <;>
  rw [hT, hD, hS, hI, hSv, hO, hTy] at h <;>
  simp only [errTag] at h <;>
  first
    | exact Except.noConfusion h
    | (injection h with h2; subst h2; simp [Except.isOk, Except.toBool])

/-- Claim C2: the create transaction is atomic — when a failure is
injected between the `Incident` insert and the `IncidentService`
inserts, both writes are rolled back, so the `Incident` and
`IncidentService` tables are exactly as before the call and no
intermediate state is observable in the final store. -/
theorem c2_create_atomic (env : Env) (db : DB)
    (h : env.failBetweenInserts = true) :
    (POST env db).db.incidents = db.incidents ∧
    (POST env db).db.incidentServices = db.incidentServices := by
  rw [post_db_unchanged_of_failBetween env db h]
  exact ⟨rfl, rfl⟩

/-- Witness for C2 at the concrete failure-injected scenario. -/
theorem c2_witness :
    (POST envFB db0).db.incidents = db0.incidents ∧
    (POST envFB db0).db.incidentServices = db0.incidentServices :=
  c2_create_atomic envFB db0 rfl

/-- Claim C10: an authenticated request whose body `req.json()` cannot
parse is answered by the generic 500 catch-all, not an itemized
validation failure, and no database write occurs. -/
theorem c10_unparseable_body_internal_error (env : Env) (db : DB)
    (u o : String) (hu : env.userId = some u) (ho : env.orgId = some o)
    (hb : env.body = none) :
    (POST env db).response = internalError ∧ (POST env db).db = db ∧
    (POST env db).events = [] := by
  refine ⟨?_, ?_, ?_⟩ <;> simp [POST, hu, ho, hb]

/-- Witness for C10 at the concrete unparseable-body scenario. -/
theorem c10_witness :
    (POST envNoBody db0).response = internalError ∧
    (POST envNoBody db0).db = db0 ∧ (POST envNoBody db0).events = [] :=
  c10_unparseable_body_internal_error envNoBody db0 ("user1") ("clerk1")
    rfl rfl rfl

/-- Counterexample to claim C1 as stated: in the concrete scenario the
write has committed (the store holds the new incident afterwards), yet a
failing publish makes the handler answer the generic 500
`InternalError`, not the success response — because the
`pusherServer.trigger` call sits inside the `try` block. -/
theorem c1_publish_failure_counterexample :
    (POST envNF db0).response = internalError ∧
    (POST envNF db0).db.incidents ≠ [] := by decide

/-- Claim C1 (amended): when the notification publish fails after the
transaction committed, the caller receives the generic 500
`InternalError` response (not the success response), no event is
delivered, and the committed incident row remains in the store. -/
theorem c1_amended_notify_failure_reports_error (env : Env) (db : DB)
    (u o : String) (raw : RawInput) (intent : IncidentIntent)
    (org : OrganizationRow)
    (hu : env.userId = some u) (ho : env.orgId = some o)
    (hb : env.body = some raw) (hp : safeParse raw = .ok intent)
    (horg : orgLookup db intent.organizationId o = some org)
    (hcount : servicesCount db intent.serviceIds intent.organizationId =
      intent.serviceIds.length)
    (hfb : env.failBetweenInserts = false) (hnf : env.notifyFails = true) :
    (POST env db).response = internalError ∧ (POST env db).events = [] ∧
    newRow db intent env.now ∈ (POST env db).db.incidents := by
  have hred := post_success_reduce env db u o raw intent org hu ho hb hp
    horg hcount hfb
  rw [hred, hnf]
  refine ⟨rfl, rfl, ?_⟩
  simp [committedDB]

/-- Witness for the amended C1 at the concrete failing-publish
scenario. -/
theorem c1_amended_witness :
    (POST envNF db0).response = internalError ∧
    (POST envNF db0).events = [] ∧
    newRow db0 intent0 envNF.now ∈ (POST envNF db0).db.incidents :=
  c1_amended_notify_failure_reports_error envNF db0 ("user1") ("clerk1")
    raw0 intent0 org0 rfl rfl rfl rfl rfl rfl rfl rfl

/-- Claim C3: when some requested service identifier resolves to no
service of the target organization (nonexistent or cross-tenant), and
the request passes the earlier stages, the handler answers 400 with the
fixed message, performs no write (the store is unchanged), publishes
nothing, and no incident row with the request's title appears. -/
theorem c3_unresolved_service_rejected (env : Env) (db : DB)
    (u o : String) (raw : RawInput) (intent : IncidentIntent)
    (org : OrganizationRow) (sid : String)
    (hu : env.userId = some u) (ho : env.orgId = some o)
    (hb : env.body = some raw) (hp : safeParse raw = .ok intent)
    (horg : orgLookup db intent.organizationId o = some org)
    (hnodup : (db.services.map ServiceRow.id).Nodup)
    (hsid : sid ∈ intent.serviceIds)
    (hbad : ∀ s ∈ db.services,
      ¬(s.id = sid ∧ s.organizationId = intent.organizationId)) :
    (POST env db).response =
      { statusCode := 400,
        body := .errorMsg ("One or more services not found") } ∧
    (POST env db).db = db ∧ (POST env db).events = [] ∧
    ((∀ i ∈ db.incidents, i.title ≠ intent.title) →
      ∀ i ∈ (POST env db).db.incidents, i.title ≠ intent.title) := by
  have hlt := servicesCount_lt_of_unresolved db intent.serviceIds
    intent.organizationId sid hnodup hsid hbad
  have hne : servicesCount db intent.serviceIds intent.organizationId ≠
      intent.serviceIds.length := Nat.ne_of_lt hlt
  have hpost : POST env db =
      { response := { statusCode := 400,
                      body := .errorMsg ("One or more services not found") },
        db := db, events := [] } := by
    simp only [POST, hu, ho, hb, hp, horg]
    rw [if_pos hne]
  rw [hpost]
  exact ⟨rfl, rfl, rfl, fun h i hi => h i hi⟩

/-- Witness for C3 at the concrete unresolved-service scenario. -/
theorem c3_witness :
    (POST envC3 db0).response =
      { statusCode := 400,
        body := .errorMsg ("One or more services not found") } ∧
    (POST envC3 db0).db = db0 ∧ (POST envC3 db0).events = [] ∧
    ((∀ i ∈ db0.incidents, i.title ≠ intentC3.title) →
      ∀ i ∈ (POST envC3 db0).db.incidents, i.title ≠ intentC3.title) :=
  c3_unresolved_service_rejected envC3 db0 ("user1") ("clerk1") rawC3
    intentC3 org0 ("cservzzz9") rfl rfl rfl rfl rfl (by decide) (by decide)
    (by decide)

/-- Shape of the publish list: either no event was delivered, or the
request committed and the single delivered event carries the re-read
hydrated incident of the committed store. -/
theorem post_events_shape (env : Env) (db : DB) :
    (POST env db).events = [] ∨
    ∃ intent : IncidentIntent,
      (POST env db).db = committedDB db intent env.now ∧
      (POST env db).events =
        [{ channel := "org-" ++ intent.organizationId,
           eventName := "incident-created",
           payload := hydrate (committedDB db intent env.now) db.nextId }] := by
  rcases hu : env.userId with _ | u
  · left
    simp [POST, hu]
  rcases ho : env.orgId with _ | o
  · left
    simp [POST, hu, ho]
  rcases hb : env.body with _ | raw
  · left
    simp [POST, hu, ho, hb]
  rcases hp : safeParse raw with errs | intent
  · left
    simp [POST, hu, ho, hb, hp]
  rcases horg : orgLookup db intent.organizationId o with _ | org
  · left
    simp [POST, hu, ho, hb, hp, horg]
  by_cases hcnt : servicesCount db intent.serviceIds intent.organizationId =
    intent.serviceIds.length
  · rcases hfb : env.failBetweenInserts with _ | _
    · have hred := post_success_reduce env db u o raw intent org hu ho hb hp
        horg hcnt hfb
      rcases hnf : env.notifyFails with _ | _
      · right
        rw [hred, hnf]
        exact ⟨intent, rfl, rfl⟩
      · left
        rw [hred, hnf]
        rfl
    · left
      exact post_events_nil_of_failBetween env db hfb
  · left
    have hpost : (POST env db).events = [] := by
      simp only [POST, hu, ho, hb, hp, horg]
      rw [if_pos hcnt]
    exact hpost

/-- The committed store's hydrating read always finds an incident row of
the committed store itself. -/
theorem hydrate_committed_mem (db : DB) (intent : IncidentIntent)
    (now : Nat) :
    ∃ hi : HydratedIncident,
      hydrate (committedDB db intent now) db.nextId = some hi ∧
      hi.incident ∈ (committedDB db intent now).incidents := by
  have hsome : ((committedDB db intent now).incidents.find?
      (fun i => i.id == db.nextId)).isSome := by
    rw [List.find?_isSome]
    exact ⟨newRow db intent now, by simp [committedDB], by simp [newRow]⟩
  obtain ⟨irow, hfind⟩ := Option.isSome_iff_exists.mp hsome
  refine ⟨{ incident := irow,
            services := ((committedDB db intent now).incidentServices.filter
                (fun a => a.incidentId == db.nextId)).map
              (fun a => (a, (committedDB db intent now).services.find?
                (fun s => s.id == a.serviceId))) }, ?_, ?_⟩
  · unfold hydrate
    rw [hfind]
    rfl
  · exact List.mem_of_find?_eq_some hfind

/-- Claim C4: every delivered publish event carries an incident that is
durably present in the final store (notify strictly follows commit), and
an aborted transaction (failure injected inside the unit of work)
delivers no publish event. -/
theorem c4_notify_after_commit (env : Env) (db : DB) :
    (∀ e ∈ (POST env db).events, ∃ hi : HydratedIncident,
        e.payload = some hi ∧ hi.incident ∈ (POST env db).db.incidents) ∧
    (env.failBetweenInserts = true → (POST env db).events = []) := by
  refine ⟨?_, post_events_nil_of_failBetween env db⟩
  intro e he
  rcases post_events_shape env db with hnil | ⟨intent, hdb, hev⟩
  · rw [hnil] at he
    cases he
  · rw [hev] at he
    have he2 := List.mem_singleton.mp he
    subst he2
    obtain ⟨hi, hhy, hmem⟩ := hydrate_committed_mem db intent env.now
    refine ⟨hi, ?_, ?_⟩
    · exact hhy
    · rw [hdb]
      exact hmem

/-- Witness for C4: the concrete success scenario's event carries the
committed incident, and the concrete aborted scenario delivers no
event. -/
theorem c4_witness :
    (∃ hi : HydratedIncident, ev0.payload = some hi ∧
      hi.incident ∈ (POST env0 db0).db.incidents) ∧
    (POST envFB db0).events = [] :=
  ⟨(c4_notify_after_commit env0 db0).1 ev0 (by decide),
   (c4_notify_after_commit envFB db0).2 rfl⟩

/-- Counterexample to claim C5 as stated: an unauthenticated request
whose body is invalid is answered 401 by the authentication check, not
classified by the Validator — so the Validator does not run before every
authorization check. -/
theorem c5_auth_before_validation_counterexample :
    (safeParse rawBad).isOk = false ∧
    (POST envNoAuth db0).response =
      { statusCode := 401, body := .errorMsg ("Unauthorized") } ∧
    (POST envNoAuth db0).response.statusCode ≠ 400 := by decide

/-- Claim C5 (amended): the stages short-circuit in the source's order —
the authentication check answers 401 first whenever the session lacks a
user or an organization; for an authenticated caller an invalid body is
classified 400 by the Validator (independently of the store, before any
organization or service lookup); and only a validated request reaches
the organization lookup, whose failure answers 404. -/
theorem c5_amended_stage_order (env : Env) (db : DB) :
    ((env.userId = none ∨ env.orgId = none) →
      (POST env db).response =
        { statusCode := 401, body := .errorMsg ("Unauthorized") }) ∧
    (∀ u o raw errs, env.userId = some u → env.orgId = some o →
      env.body = some raw → safeParse raw = .error errs →
      (POST env db).response =
        { statusCode := 400, body := .errorDetails ("Invalid data") errs }) ∧
    (∀ u o raw intent, env.userId = some u → env.orgId = some o →
      env.body = some raw → safeParse raw = .ok intent →
      orgLookup db intent.organizationId o = none →
      (POST env db).response =
        { statusCode := 404, body := .errorMsg ("Organization not found") }) := by
  refine ⟨?_, ?_, ?_⟩
  · intro h
    rcases h with h | h
    · simp [POST, h]
    · rcases hu : env.userId with _ | u <;> simp [POST, hu, h]
  · intro u o raw errs hu ho hb hp
    simp [POST, hu, ho, hb, hp]
  · intro u o raw intent hu ho hb hp horg
    simp [POST, hu, ho, hb, hp, horg]

/-- Witness for the amended C5 at three concrete scenarios: no session,
invalid body, unresolved organization. -/
theorem c5_amended_witness :
    (POST envNoAuth db0).response =
      { statusCode := 401, body := .errorMsg ("Unauthorized") } ∧
    (POST envBadBody db0).response =
      { statusCode := 400,
        body := .errorDetails ("Invalid data") [Field.title] } ∧
    (POST env0 dbNoOrg).response =
      { statusCode := 404, body := .errorMsg ("Organization not found") } :=
  ⟨(c5_amended_stage_order envNoAuth db0).1 (Or.inl rfl),
   (c5_amended_stage_order envBadBody db0).2.1 ("user1") ("clerk1") rawBad
     [Field.title] rfl rfl rfl rfl,
   (c5_amended_stage_order env0 dbNoOrg).2.2 ("user1") ("clerk1") raw0
     intent0 rfl rfl rfl rfl rfl⟩

/-- Claim C6: whenever validation fails, the reported issue list
enumerates exactly the violated field constraints — a field is in the
list if and only if its constraint is violated, so multiple simultaneous
violations are all reported, not just the first. -/
theorem c6_all_violations_enumerated (raw : RawInput) (errs : List Field)
    (h : safeParse raw = .error errs) :
    ((Field.title ∈ errs ↔
        ¬∃ t, raw.title = some t ∧ (1 ≤ t.length ∧ t.length ≤ 100)) ∧
     (Field.description ∈ errs ↔
        ¬∃ d, raw.description = some d ∧ (10 ≤ d.length ∧ d.length ≤ 1000)) ∧
     (Field.status ∈ errs ↔
        ¬(raw.status = some ("investigating") ∨ raw.status = some ("identified") ∨
          raw.status = some ("monitoring") ∨ raw.status = some ("resolved"))) ∧
     (Field.impact ∈ errs ↔
        ¬(raw.impact = some ("minor") ∨ raw.impact = some ("major") ∨
          raw.impact = some ("critical"))) ∧
     (Field.serviceIds ∈ errs ↔
        ¬∃ l, raw.serviceIds = some l ∧ (1 ≤ l.length ∧ l.all isCuid = true)) ∧
     (Field.organizationId ∈ errs ↔
        ¬∃ s, raw.organizationId = some s ∧ isCuid s = true) ∧
     (Field.type ∈ errs ↔
        ¬(raw.type = none ∨ raw.type = some ("incident") ∨
          raw.type = some ("maintenance")))) := by
  obtain ⟨h1, h2, h3, h4, h5, h6, h7⟩ := safeParse_error_members raw errs h
  refine ⟨?_, ?_, ?_, ?_, ?_, ?_, ?_⟩
  · rw [← parseTitle_isOk_iff raw.title, Bool.not_eq_true]
    exact h1.symm
  · rw [← parseDescription_isOk_iff raw.description, Bool.not_eq_true]
    exact h2.symm
  · rw [← parseStatus_isOk_iff raw.status, Bool.not_eq_true]
    exact h3.symm
  · rw [← parseImpact_isOk_iff raw.impact, Bool.not_eq_true]
    exact h4.symm
  · rw [← parseServiceIds_isOk_iff raw.serviceIds, Bool.not_eq_true]
    exact h5.symm
  · rw [← parseOrganizationId_isOk_iff raw.organizationId, Bool.not_eq_true]
    exact h6.symm
  · rw [← parseType_isOk_iff raw.type, Bool.not_eq_true]
    exact h7.symm

/-- Witness for C6 at the specification's multi-violation example: the
issue list for `rawC6` contains title, description, status and
serviceIds simultaneously (and the membership iffs hold there). -/
theorem c6_witness :
    ((Field.title ∈ errsC6 ↔
        ¬∃ t, rawC6.title = some t ∧ (1 ≤ t.length ∧ t.length ≤ 100)) ∧
     (Field.description ∈ errsC6 ↔
        ¬∃ d, rawC6.description = some d ∧ (10 ≤ d.length ∧ d.length ≤ 1000)) ∧
     (Field.status ∈ errsC6 ↔
        ¬(rawC6.status = some ("investigating") ∨ rawC6.status = some ("identified") ∨
          rawC6.status = some ("monitoring") ∨ rawC6.status = some ("resolved"))) ∧
     (Field.impact ∈ errsC6 ↔
        ¬(rawC6.impact = some ("minor") ∨ rawC6.impact = some ("major") ∨
          rawC6.impact = some ("critical"))) ∧
     (Field.serviceIds ∈ errsC6 ↔
        ¬∃ l, rawC6.serviceIds = some l ∧ (1 ≤ l.length ∧ l.all isCuid = true)) ∧
     (Field.organizationId ∈ errsC6 ↔
        ¬∃ s, rawC6.organizationId = some s ∧ isCuid s = true) ∧
     (Field.type ∈ errsC6 ↔
        ¬(rawC6.type = none ∨ rawC6.type = some ("incident") ∨
          rawC6.type = some ("maintenance")))) :=
  c6_all_violations_enumerated rawC6 errsC6 rfl

/-- Counterexample to claim C7 as stated: `rawDup` validates to an
intent whose `serviceIds` list `[S1, S1]` repeats one identifier whose
distinct value resolves within the organization, yet the count check
rejects the request with 400 and the writer is never invoked. -/
theorem c7_duplicate_id_counterexample :
    safeParse rawDup = Except.ok intentDup ∧
    intentDup.serviceIds = ["cserva111", "cserva111"] ∧
    (∀ sid ∈ intentDup.serviceIds, ∃ s ∈ db0.services,
      s.id = sid ∧ s.organizationId = intentDup.organizationId) ∧
    (POST envDup db0).response =
      { statusCode := 400,
        body := .errorMsg ("One or more services not found") } ∧
    (POST envDup db0).db = db0 :=
  ⟨rfl, rfl, by decide, rfl, rfl⟩

/-- Claim C7 (amended): the service-resolution check compares the count
of matched service rows against the total number of requested
identifiers including duplicates; over a store whose service identities
are unique it passes exactly when the requested list is duplicate-free
and every element resolves to a service owned by the organization — so
a request repeating a valid identifier is rejected. -/
theorem c7_amended_count_check (db : DB) (ids : List String)
    (orgId : String) (hnodup : (db.services.map ServiceRow.id).Nodup) :
    servicesCount db ids orgId = ids.length ↔
      (ids.Nodup ∧ ∀ sid ∈ ids, ∃ s ∈ db.services,
        s.id = sid ∧ s.organizationId = orgId) :=
  servicesCount_eq_iff db ids orgId hnodup

/-- Witness for the amended C7 at the concrete store `db0`. -/
theorem c7_amended_witness :
    servicesCount db0 ["cserva111", "cservb222"] ("corg12345") =
      (["cserva111", "cservb222"] : List String).length ↔
      ((["cserva111", "cservb222"] : List String).Nodup ∧
        ∀ sid ∈ (["cserva111", "cservb222"] : List String),
          ∃ s ∈ db0.services, s.id = sid ∧ s.organizationId = ("corg12345")) :=
  c7_amended_count_check db0 ["cserva111", "cservb222"] ("corg12345")
    (by decide)

/-- Counterexample to claim C8 as stated: `rawC8` meets all five listed
conditions (title, description, status, impact, type) yet the Validator
rejects it — the stated conditions are not sufficient, because
`serviceIds` (non-empty list of store-format identifiers) and
`organizationId` (store-format identifier) are also checked. -/
theorem c8_missing_conditions_counterexample :
    (∃ t, rawC8.title = some t ∧ (1 ≤ t.length ∧ t.length ≤ 100)) ∧
    (∃ d, rawC8.description = some d ∧ (10 ≤ d.length ∧ d.length ≤ 1000)) ∧
    (rawC8.status = some ("investigating") ∨ rawC8.status = some ("identified") ∨
      rawC8.status = some ("monitoring") ∨ rawC8.status = some ("resolved")) ∧
    (rawC8.impact = some ("minor") ∨ rawC8.impact = some ("major") ∨
      rawC8.impact = some ("critical")) ∧
    (rawC8.type = none ∨ rawC8.type = some ("incident") ∨
      rawC8.type = some ("maintenance")) ∧
    (safeParse rawC8).isOk = false := by
  refine ⟨⟨"API latency issues", rfl, by decide⟩,
    ⟨"Elevated latency on the public API", rfl, by decide⟩,
    Or.inl rfl, Or.inr (Or.inl rfl), Or.inl rfl, by decide⟩

/-- Claim C8 (amended): the Validator accepts exactly when title is
non-empty and at most 100 characters, description is 10–1000
characters, status and impact are in their enumerations, type is absent
(defaulting to incident) or in its enumeration, and additionally
serviceIds is a present non-empty list of store-format (cuid)
identifiers and organizationId is a store-format identifier; it is a
pure function, hence deterministic and side-effect-free. -/
theorem c8_amended_validator_iff (raw : RawInput) :
    (safeParse raw).isOk = true ↔
      ((∃ t, raw.title = some t ∧ (1 ≤ t.length ∧ t.length ≤ 100)) ∧
       (∃ d, raw.description = some d ∧ (10 ≤ d.length ∧ d.length ≤ 1000)) ∧
       (raw.status = some ("investigating") ∨ raw.status = some ("identified") ∨
         raw.status = some ("monitoring") ∨ raw.status = some ("resolved")) ∧
       (raw.impact = some ("minor") ∨ raw.impact = some ("major") ∨
         raw.impact = some ("critical")) ∧
       (∃ l, raw.serviceIds = some l ∧ (1 ≤ l.length ∧ l.all isCuid = true)) ∧
       (∃ s, raw.organizationId = some s ∧ isCuid s = true) ∧
       (raw.type = none ∨ raw.type = some ("incident") ∨
         raw.type = some ("maintenance"))) := by
  rw [safeParse_isOk_iff_parts, parseTitle_isOk_iff, parseDescription_isOk_iff,
      parseStatus_isOk_iff, parseImpact_isOk_iff, parseServiceIds_isOk_iff,
      parseOrganizationId_isOk_iff, parseType_isOk_iff]

/-- Projecting the association rows built for the new incident back to
their service identifiers returns the requested list. -/
theorem map_serviceId_assoc (nid : Nat) (db : DB) (ids : List String) :
    ((ids.map (fun sid =>
        (({ incidentId := nid, serviceId := sid } : IncidentServiceRow),
         db.services.find? (fun s => s.id == sid)))).map
      (fun p => p.1.serviceId)) = ids := by
  induction ids with
  | nil => rfl
  | cons a l ih =>
    simp only [List.map_cons]
    rw [ih]

/-- Claim C9: on the success path exactly one event is published, on the
channel `org-` followed by the organization identity, named
incident-created, carrying the hydrated incident — the created row
joined with the full service records of the organization — and the same
hydrated incident is the response body. -/
theorem c9_single_publish_hydrated (env : Env) (db : DB) (u o : String)
    (raw : RawInput) (intent : IncidentIntent) (org : OrganizationRow)
    (hu : env.userId = some u) (ho : env.orgId = some o)
    (hb : env.body = some raw) (hp : safeParse raw = .ok intent)
    (horg : orgLookup db intent.organizationId o = some org)
    (hcount : servicesCount db intent.serviceIds intent.organizationId =
      intent.serviceIds.length)
    (hfb : env.failBetweenInserts = false) (hnf : env.notifyFails = false)
    (hnodup : (db.services.map ServiceRow.id).Nodup)
    (hfresh1 : ∀ i ∈ db.incidents, i.id ≠ db.nextId)
    (hfresh2 : ∀ a ∈ db.incidentServices, a.incidentId ≠ db.nextId) :
    ∃ hi : HydratedIncident,
      (POST env db).events =
        [{ channel := "org-" ++ intent.organizationId,
           eventName := "incident-created", payload := some hi }] ∧
      (POST env db).response =
        { statusCode := 200, body := .incidentBody (some hi) } ∧
      hi.incident.title = intent.title ∧
      hi.incident.description = intent.description ∧
      hi.incident.organizationId = intent.organizationId ∧
      hi.services.map (fun p => p.1.serviceId) = intent.serviceIds ∧
      (∀ p ∈ hi.services, ∃ s : ServiceRow, p.2 = some s ∧
        s.id = p.1.serviceId ∧ s.organizationId = intent.organizationId) := by
  have hred := post_success_reduce env db u o raw intent org hu ho hb hp
    horg hcount hfb
  have hhy := hydrate_committed db intent env.now hfresh1 hfresh2
  have hres := ((servicesCount_eq_iff db intent.serviceIds
    intent.organizationId hnodup).mp hcount).2
  refine ⟨{ incident := newRow db intent env.now,
            services := intent.serviceIds.map (fun sid =>
              ({ incidentId := db.nextId, serviceId := sid },
               db.services.find? (fun s => s.id == sid))) },
    ?_, ?_, rfl, rfl, rfl, ?_, ?_⟩
  · rw [hred, hnf, hhy]
    rfl
  · rw [hred, hnf, hhy]
    rfl
  · exact map_serviceId_assoc db.nextId db intent.serviceIds
  · intro p hp2
    rcases List.mem_map.mp hp2 with ⟨sid, hsidmem, rfl⟩
    obtain ⟨s, hsmem, hsid, hsorg⟩ := hres sid hsidmem
    have hsome : (db.services.find? (fun s2 => s2.id == sid)).isSome := by
      rw [List.find?_isSome]
      exact ⟨s, hsmem, by simp [hsid]⟩
    obtain ⟨s2, hfind⟩ := Option.isSome_iff_exists.mp hsome
    have hs2id : s2.id = sid := by
      have hpred := List.find?_some hfind
      simpa using hpred
    have hs2eq : s2 = s := List.inj_on_of_nodup_map hnodup
      (List.mem_of_find?_eq_some hfind) hsmem (by rw [hs2id, hsid])
    exact ⟨s2, hfind, hs2id, by rw [hs2eq]; exact hsorg⟩

/-- Witness for C9 at the concrete success scenario. -/
theorem c9_witness :
    ∃ hi : HydratedIncident,
      (POST env0 db0).events =
        [{ channel := "org-" ++ intent0.organizationId,
           eventName := "incident-created", payload := some hi }] ∧
      (POST env0 db0).response =
        { statusCode := 200, body := .incidentBody (some hi) } ∧
      hi.incident.title = intent0.title ∧
      hi.incident.description = intent0.description ∧
      hi.incident.organizationId = intent0.organizationId ∧
      hi.services.map (fun p => p.1.serviceId) = intent0.serviceIds ∧
      (∀ p ∈ hi.services, ∃ s : ServiceRow, p.2 = some s ∧
        s.id = p.1.serviceId ∧ s.organizationId = intent0.organizationId) :=
  c9_single_publish_hydrated env0 db0 ("user1") ("clerk1") raw0 intent0
    org0 rfl rfl rfl rfl rfl rfl rfl rfl (by decide) (by decide) (by decide)

end StatusPage
